import Mathlib

/-!
Verification of the `aoc-fetch` library (src/lib.rs, src/star_info.rs):
a shallow embedding of its data model, response classification, disk
cache orchestration and text splitters, with theorems checking the
natural-language specification against the code.

Effects are made explicit: the HTTP transport is an oracle value
(`HttpResp`), the filesystem and environment are a `World` record
threaded through the stateful operations, and Rust panics (`unwrap` /
`expect`) are a distinct `Outcome.panic` constructor, separate from the
library's `FetchError` taxonomy.
-/

namespace AocFetch

/-- Embeds `DateInfo` from lib.rs: an immutable `(day, year)` pair of strings. -/
structure DateInfo where
  day : String
  year : String
deriving DecidableEq, Repr

/-- Embeds `FetchError` from lib.rs: a single-variant error carrying a cause string. -/
inductive FetchError where
  | Cause : String → FetchError
deriving DecidableEq, Repr

/-- Embeds `AocInput` from lib.rs: day, year and the raw input body. -/
structure AocInput where
  day : String
  year : String
  input : String
deriving DecidableEq, Repr

/-- Embeds `AocInput::new`. -/
def AocInput.new (day year input : String) : AocInput :=
  ⟨day, year, input⟩

/-- Outcome of a Rust call: normal return, a returned `FetchError`, or a
process-aborting panic (`unwrap` / `expect` on a failure). -/
inductive Outcome (α : Type) where
  | panic : Outcome α
  | error : FetchError → Outcome α
  | ok : α → Outcome α
deriving DecidableEq, Repr

/-- Result of the blocking HTTP GET, as seen by the library after
`send()` and `text()`: the send itself failed, the body failed to decode
to text, or a body string was obtained (status codes are never inspected). -/
inductive HttpResp where
  | sendErr : HttpResp
  | textErr : HttpResp
  | body : String → HttpResp
deriving DecidableEq, Repr

/-- Boolean substring containment on character lists, checking
`pat.isPrefixOf` at each suffix (semantics of Rust `str::contains`). -/
def listContains (pat : List Char) : List Char → Bool
  | [] => pat.isEmpty
  | c :: rest => pat.isPrefixOf (c :: rest) || listContains pat rest

/-- Rust `str::contains(pat)` on strings. -/
def strContains (s pat : String) : Bool :=
  listContains pat.toList s.toList

/-- The `INPUT_DIR` constant from lib.rs. -/
def INPUT_DIR : String := "inputs"

/-- Embeds `AocInput::get_input_filename`: `format!("{}/{}-{}.txt", input_dir, self.year, self.day)`. -/
def get_input_filename (inp : AocInput) (input_dir : String) : String :=
  input_dir ++ "/" ++ inp.year ++ "-" ++ inp.day ++ ".txt"

/-- Embeds `fetch_input` from lib.rs, lines 101-146, with the HTTP exchange an
oracle parameter: transport errors map to the two transport `FetchError`s,
then the body runs through the substring classifier in source order. -/
def fetch_input (day year session : String) (resp : HttpResp) : Outcome AocInput :=
  match resp with
  | .sendErr => .error (.Cause "Error sending GET request")
  | .textErr => .error (.Cause "Error converting input to string")
  | .body input =>
    if strContains input "Service Unavailable" then
      .error (.Cause "Advent of Code is dead")
    else if strContains input "Please don't repeatedly request" || strContains input "Not Found" then
      .error (.Cause ("Puzzle for day " ++ day ++ " is not live yet"))
    else if strContains input "log in" then
      .error (.Cause "Session cookie is invalid")
    else if strContains input "Internal Server Error" then
      .error (.Cause "Internal Server Error, invalid session cookie perhaps?")
    else
      .ok (AocInput.new day year input)

/-- Embeds `Stars` from star_info.rs. -/
inductive Stars where
  | Zero : Stars
  | One : Stars
  | Two : Stars
deriving DecidableEq, Repr

/-- Embeds `get_stars` from star_info.rs, lines 14-45, with the HTTP exchange an
oracle parameter. Note line 27: `input.unwrap().text().unwrap()` — a body
decode failure is an `unwrap` panic, not a returned error. -/
def get_stars (task : DateInfo) (session : String) (resp : HttpResp) : Outcome Stars :=
  match resp with
  | .sendErr => .error (.Cause "Error sending GET request")
  | .textErr => .panic
  | .body input =>
    if strContains input "Please don't repeatedly request" || strContains input "Not Found" then
      .error (.Cause ("Puzzle for day " ++ task.day ++ " is not live yet"))
    else if strContains input "The first half of this puzzle is complete!" then
      .ok .One
    else if strContains input "Both parts of this puzzle are complete!" then
      .ok .Two
    else
      .ok .Zero

/-- Ambient state threaded through the stateful operations: the filesystem
(`files p = none`: no file at `p`; `some none`: a file exists but reading it
to a UTF-8 string fails; `some (some s)`: a file with contents `s`), whether
the `inputs` directory exists, oracles for whether `create_dir` and
`fs::write` would succeed, and the `AOC_SESSION` environment variable. -/
structure World where
  files : String → Option (Option String)
  inputsDirExists : Bool
  createDirOk : Bool
  writeOk : Bool
  aocSession : Option String

/-- Embeds `AocInput::save_to_file` from lib.rs, lines 55-74: create the `inputs`
directory if missing (failure → "Unable to create input directory"), then
`fs::write` the body to the resolved filename, truncating any existing
file (failure → "Unable to write the file"). -/
def save_to_file (inp : AocInput) (w : World) : Outcome Unit × World :=
  if !w.inputsDirExists && !w.createDirOk then
    (.error (.Cause "Unable to create input directory"), w)
  else
    let w1 : World := { w with inputsDirExists := true }
    let fname := get_input_filename inp INPUT_DIR
    if w1.writeOk then
      (.ok (), { w1 with files := fun p => if p = fname then some (some inp.input) else w1.files p })
    else
      (.error (.Cause "Unable to write the file"), w1)

/-- Embeds `load_or_fetch_input` from lib.rs, lines 156-177. Returns the call's
outcome, the final world, and whether an HTTP request was issued. On a
cache hit the file is read (read failure → "Unable to read the file");
otherwise `AOC_SESSION` is read (`expect` panic when absent), the fetch
runs, and a successful fetch is persisted via `save_to_file`. -/
def load_or_fetch_input (day year : String) (resp : HttpResp) (w : World) :
    Outcome AocInput × World × Bool :=
  let input_path := get_input_filename (AocInput.new day year "") INPUT_DIR
  match w.files input_path with
  | some contents =>
    match contents with
    | some s => (.ok (AocInput.new day year s), w, false)
    | none => (.error (.Cause "Unable to read the file"), w, false)
  | none =>
    match w.aocSession with
    | none => (.panic, w, false)
    | some session =>
      match fetch_input day year session resp with
      | .panic => (.panic, w, true)
      | .error e => (.error e, w, true)
      | .ok inp =>
        match save_to_file inp w with
        | (.panic, w2) => (.panic, w2, true)
        | (.error e, w2) => (.error e, w2, true)
        | (.ok _, w2) => (.ok inp, w2, true)

/-- Rust `char::is_ascii_whitespace`: space, horizontal tab, line feed,
form feed, carriage return. -/
def isRustAsciiWhitespace (c : Char) : Bool :=
  c = ' ' || c = '\t' || c = '\n' || c = Char.ofNat 12 || c = '\r'

/-- Tokenizer of `str::split_ascii_whitespace`: splits on runs of ASCII
whitespace, discarding empty tokens. `acc` is the current token, reversed. -/
def splitWsAux (acc : List Char) : List Char → List (List Char)
  | [] => if acc.isEmpty then [] else [acc.reverse]
  | c :: rest =>
    if isRustAsciiWhitespace c then
      if acc.isEmpty then splitWsAux [] rest
      else acc.reverse :: splitWsAux [] rest
    else
      splitWsAux (c :: acc) rest

/-- Tokenizer of Rust `str::split` with a non-empty string pattern
`d :: ds`: splits at each leftmost non-overlapping occurrence, keeping
empty tokens. `acc` is the current token, reversed. -/
def splitByAux (d : Char) (ds : List Char) (acc : List Char) : List Char → List (List Char)
  | [] => [acc.reverse]
  | c :: rest =>
    if (d :: ds).isPrefixOf (c :: rest) then
      acc.reverse :: splitByAux d ds [] (rest.drop ds.length)
    else
      splitByAux d ds (c :: acc) rest
termination_by s => s.length
decreasing_by
  · simp only [List.length_drop, List.length_cons]
    omega
  · simp only [List.length_cons]
    omega

/-- Number of leftmost non-overlapping occurrences of the non-empty
pattern `d :: ds` in a character list — the occurrences Rust `str::split`
splits at (and `str::matches` yields). -/
def countOccs (d : Char) (ds : List Char) : List Char → Nat
  | [] => 0
  | c :: rest =>
    if (d :: ds).isPrefixOf (c :: rest) then
      countOccs d ds (rest.drop ds.length) + 1
    else
      countOccs d ds rest
termination_by s => s.length
decreasing_by
  · simp only [List.length_drop, List.length_cons]
    omega
  · simp only [List.length_cons]
    omega

/-- Token list of `AocInput::split` (whitespace split, before parsing). -/
def split_tokens (inp : AocInput) : List String :=
  (splitWsAux [] inp.input.toList).map fun cs => String.mk cs

/-- Token list of `AocInput::split_by` (delimited split, before parsing).
An empty pattern matches at every character boundary, as in Rust. -/
def split_by_tokens (inp : AocInput) (delim : String) : List String :=
  match delim.toList with
  | [] => "" :: ((inp.input.toList.map fun c => String.mk [c]) ++ [""])
  | d :: ds => (splitByAux d ds [] inp.input.toList).map fun cs => String.mk cs

/-- Embeds `.map(|x| x.parse().ok().unwrap()).collect()`: parse each token;
any failing token makes the whole traversal fail (the `unwrap` panic). -/
def mapParse {α : Type} (parse : String → Option α) : List String → Option (List α)
  | [] => some []
  | t :: ts =>
    match parse t with
    | none => none
    | some v =>
      match mapParse parse ts with
      | none => none
      | some vs => some (v :: vs)

/-- Embeds `AocInput::split<T>` from lib.rs, lines 76-81: whitespace-tokenize and
parse every token; an unparseable token is an `unwrap` panic. -/
def split {α : Type} (parse : String → Option α) (inp : AocInput) : Outcome (List α) :=
  match mapParse parse (split_tokens inp) with
  | some l => .ok l
  | none => .panic

/-- Embeds `AocInput::split_by<T>` from lib.rs, lines 83-88: delimiter-tokenize
and parse every token; an unparseable token is an `unwrap` panic. -/
def split_by {α : Type} (parse : String → Option α) (inp : AocInput) (delim : String) :
    Outcome (List α) :=
  match mapParse parse (split_by_tokens inp delim) with
  | some l => .ok l
  | none => .panic

/-- A decimal natural-number token parser (the behavior of `str::parse`
for an unsigned integer type on in-range inputs): all-digit non-empty
tokens parse, anything else fails. -/
def parseNatToken (s : String) : Option Nat :=
  if !s.toList.isEmpty && s.toList.all (fun c => c.isDigit) then
    some (s.toList.foldl (fun n c => n * 10 + (c.toNat - 48)) 0)
  else
    none

/-! ### Sample worlds used by witnesses and counterexamples -/

/-- A world whose filesystem is empty, with a session token set and all
filesystem operations succeeding. -/
def sampleEmptyWorld : World :=
  ⟨fun _ => none, false, true, true, some "tok"⟩

/-- A world holding a single cached file `inputs/2017-5.txt` with body
`"data"`. -/
def sampleHitWorld : World :=
  ⟨fun p => if p = "inputs/2017-5.txt" then some (some "data") else none,
    true, true, true, some "tok"⟩

/-- A world holding a single cached file `inputs/2016-4.txt` with body
`"old"`. -/
def sampleOverwriteWorld : World :=
  ⟨fun p => if p = "inputs/2016-4.txt" then some (some "old") else none,
    true, true, true, some "tok"⟩

/-! ### Helper lemmas -/

/-- The delimited tokenizer always yields one token more than the number of
leftmost non-overlapping occurrences of the delimiter. -/
theorem splitByAux_length (d : Char) (ds : List Char) (acc s : List Char) :
    (splitByAux d ds acc s).length = countOccs d ds s + 1 := by
  induction acc, s using splitByAux.induct d ds with
  | case1 acc => simp [splitByAux, countOccs]
  | case2 acc c rest h ih => simp [splitByAux, countOccs, h, ih]
  | case3 acc c rest h ih => simp [splitByAux, countOccs, h, ih]

/-- When every token parses, the parsing traversal succeeds and preserves
the token count. -/
theorem mapParse_isSome {α : Type} (parse : String → Option α) (l : List String)
    (h : ∀ t ∈ l, (parse t).isSome = true) :
    ∃ l2, mapParse parse l = some l2 ∧ l2.length = l.length := by
  induction l with
  | nil => exact ⟨[], rfl, rfl⟩
  | cons t ts ih =>
    obtain ⟨v, hv⟩ := Option.isSome_iff_exists.mp (h t (by simp))
    obtain ⟨l2, hl2, hlen⟩ := ih fun x hx => h x (by simp [hx])
    exact ⟨v :: l2, by simp [mapParse, hv, hl2], by simp [hlen]⟩

/-- When some token fails to parse, the parsing traversal fails. -/
theorem mapParse_none {α : Type} (parse : String → Option α) (l : List String)
    (t : String) (ht : t ∈ l) (hp : parse t = none) :
    mapParse parse l = none := by
  induction l with
  | nil => cases ht
  | cons x xs ih =>
    rcases List.mem_cons.mp ht with rfl | hmem
    · simp [mapParse, hp]
    · cases hx : parse x with
      | none => simp [mapParse, hx]
      | some v => simp [mapParse, hx, ih hmem]

/-! ### Claims -/

/-- C8: for every body and every non-empty delimiter string `delim` that
occurs `n` times in the body (leftmost non-overlapping occurrences, the
sense in which `str::split` partitions), `split_by delim` partitions the
body into exactly `n + 1` tokens, empty tokens retained, provided every
token parses into the requested scalar type. -/
theorem C8_split_by_token_count {α : Type} (inp : AocInput) (delim : String)
    (parse : String → Option α) (d : Char) (ds : List Char)
    (hdelim : delim.toList = d :: ds)
    (hparse : ∀ t ∈ split_by_tokens inp delim, (parse t).isSome = true) :
    ∃ l, split_by parse inp delim = .ok l ∧
      l.length = countOccs d ds inp.input.toList + 1 := by
  obtain ⟨l2, hl2, hlen⟩ := mapParse_isSome parse _ hparse
  refine ⟨l2, by simp [split_by, hl2], ?_⟩
  rw [hlen]
  unfold split_by_tokens
  rw [hdelim]
  simp [splitByAux_length]

/-- Witness for C8 at the spec's own example: body `"a,,b"`, delimiter
`","`, identity string parsing — three tokens. -/
theorem C8_witness :
    ∃ l, split_by (fun s => some s) (AocInput.new "1" "2020" "a,,b") "," = Outcome.ok l ∧
      l.length = countOccs ',' [] (AocInput.new "1" "2020" "a,,b").input.toList + 1 :=
  C8_split_by_token_count (AocInput.new "1" "2020" "a,,b") "," (fun s => some s)
    ',' [] rfl fun _ _ => rfl

/-- C9: if any token produced by `split` or `split_by` fails to parse into
the requested type, the whole operation aborts fatally (a panic), returning
neither a partial sequence of parsed values nor any `FetchError` of the
fetch taxonomy. -/
theorem C9_parse_failure_fatal {α : Type} (inp : AocInput) (parse : String → Option α)
    (delim : String) :
    ((∃ t ∈ split_tokens inp, parse t = none) →
      split parse inp = .panic ∧
      (∀ l, split parse inp ≠ .ok l) ∧ (∀ c, split parse inp ≠ .error c)) ∧
    ((∃ t ∈ split_by_tokens inp delim, parse t = none) →
      split_by parse inp delim = .panic ∧
      (∀ l, split_by parse inp delim ≠ .ok l) ∧ (∀ c, split_by parse inp delim ≠ .error c)) := by
  constructor
  · rintro ⟨t, ht, hp⟩
    have h := mapParse_none parse _ t ht hp
    exact ⟨by simp [split, h], fun l => by simp [split, h], fun c => by simp [split, h]⟩
  · rintro ⟨t, ht, hp⟩
    have h := mapParse_none parse _ t ht hp
    exact ⟨by simp [split_by, h], fun l => by simp [split_by, h], fun c => by simp [split_by, h]⟩

/-- Witness for C9: whitespace-splitting `"1 a 3"` as natural numbers
panics on the token `"a"`. -/
theorem C9_witness :
    split parseNatToken (AocInput.new "1" "2020" "1 a 3") =
      (Outcome.panic : Outcome (List Nat)) :=
  ((C9_parse_failure_fatal (AocInput.new "1" "2020" "1 a 3") parseNatToken ",").1
    ⟨"a", by decide, by decide⟩).1

/-- C1: for every response body obtained by `fetch_input`, the substring
probes apply in a fixed order with the first match winning:
"Service Unavailable" → "Advent of Code is dead"; otherwise
"Please don't repeatedly request" or "Not Found" → "Puzzle for day {day}
is not live yet"; otherwise "log in" → "Session cookie is invalid";
otherwise "Internal Server Error" → "Internal Server Error, invalid
session cookie perhaps?"; a body matching no probe is returned verbatim as
a successful input. -/
theorem C1_fetch_classifier_order (day year session body : String) :
    (strContains body "Service Unavailable" = true →
      fetch_input day year session (.body body) =
        .error (.Cause "Advent of Code is dead")) ∧
    (strContains body "Service Unavailable" = false →
      (strContains body "Please don't repeatedly request" || strContains body "Not Found") = true →
      fetch_input day year session (.body body) =
        .error (.Cause ("Puzzle for day " ++ day ++ " is not live yet"))) ∧
    (strContains body "Service Unavailable" = false →
      (strContains body "Please don't repeatedly request" || strContains body "Not Found") = false →
      strContains body "log in" = true →
      fetch_input day year session (.body body) =
        .error (.Cause "Session cookie is invalid")) ∧
    (strContains body "Service Unavailable" = false →
      (strContains body "Please don't repeatedly request" || strContains body "Not Found") = false →
      strContains body "log in" = false →
      strContains body "Internal Server Error" = true →
      fetch_input day year session (.body body) =
        .error (.Cause "Internal Server Error, invalid session cookie perhaps?")) ∧
    (strContains body "Service Unavailable" = false →
      (strContains body "Please don't repeatedly request" || strContains body "Not Found") = false →
      strContains body "log in" = false →
      strContains body "Internal Server Error" = false →
      fetch_input day year session (.body body) = .ok (AocInput.new day year body)) := by
  refine ⟨?_, ?_, ?_, ?_, ?_⟩ <;> intros <;> simp_all [fetch_input]

/-- Witness for C1: each classification branch at a concrete body. -/
theorem C1_witness :
    fetch_input "1" "2018" "s" (.body "503 Service Unavailable") =
      .error (.Cause "Advent of Code is dead") ∧
    fetch_input "30" "2018" "s" (.body "404 Not Found") =
      .error (.Cause "Puzzle for day 30 is not live yet") ∧
    fetch_input "1" "2018" "s" (.body "please log in first") =
      .error (.Cause "Session cookie is invalid") ∧
    fetch_input "1" "2018" "s" (.body "Internal Server Error") =
      .error (.Cause "Internal Server Error, invalid session cookie perhaps?") ∧
    fetch_input "1" "2018" "s" (.body "1721\n979\n") =
      .ok (AocInput.new "1" "2018" "1721\n979\n") :=
  ⟨(C1_fetch_classifier_order "1" "2018" "s" _).1 (by decide),
   (C1_fetch_classifier_order "30" "2018" "s" _).2.1 (by decide) (by decide),
   (C1_fetch_classifier_order "1" "2018" "s" _).2.2.1 (by decide) (by decide) (by decide),
   (C1_fetch_classifier_order "1" "2018" "s" _).2.2.2.1 (by decide) (by decide) (by decide)
     (by decide),
   (C1_fetch_classifier_order "1" "2018" "s" _).2.2.2.2 (by decide) (by decide) (by decide)
     (by decide)⟩

/-- C4: every input successfully returned by `fetch_input` has a body
containing none of the classifier's sentinel substrings. -/
theorem C4_input_no_sentinels (day year session : String) (resp : HttpResp)
    (inp : AocInput) (h : fetch_input day year session resp = .ok inp) :
    strContains inp.input "Service Unavailable" = false ∧
    strContains inp.input "Please don't repeatedly request" = false ∧
    strContains inp.input "Not Found" = false ∧
    strContains inp.input "log in" = false ∧
    strContains inp.input "Internal Server Error" = false := by
  cases resp with
  | sendErr => simp [fetch_input] at h
  | textErr => simp [fetch_input] at h
  | body b =>
    simp only [fetch_input] at h
    split_ifs at h with h1 h2 h3 h4
    simp_all [AocInput.new]
    obtain rfl := h
    simp_all [Bool.or_eq_false_iff]

/-- Witness for C4 at a concrete successful fetch. -/
theorem C4_witness :
    strContains (AocInput.new "1" "2018" "1721\n979\n366\n").input "Service Unavailable" = false ∧
    strContains (AocInput.new "1" "2018" "1721\n979\n366\n").input
      "Please don't repeatedly request" = false ∧
    strContains (AocInput.new "1" "2018" "1721\n979\n366\n").input "Not Found" = false ∧
    strContains (AocInput.new "1" "2018" "1721\n979\n366\n").input "log in" = false ∧
    strContains (AocInput.new "1" "2018" "1721\n979\n366\n").input "Internal Server Error" = false :=
  C4_input_no_sentinels "1" "2018" "s" (.body "1721\n979\n366\n")
    (AocInput.new "1" "2018" "1721\n979\n366\n") (by decide)

/-- C5: `get_stars` first rejects a body containing "Please don't
repeatedly request" or "Not Found" with "Puzzle for day {day} is not live
yet"; otherwise "The first half of this puzzle is complete!" yields one
star, otherwise "Both parts of this puzzle are complete!" yields two,
otherwise zero; and the service-unavailable / log-in /
internal-server-error probes are not applied in this variant (a body
containing only those sentinels classifies as zero stars). -/
theorem C5_star_classifier_order (task : DateInfo) (session body : String) :
    ((strContains body "Please don't repeatedly request" || strContains body "Not Found") = true →
      get_stars task session (.body body) =
        .error (.Cause ("Puzzle for day " ++ task.day ++ " is not live yet"))) ∧
    ((strContains body "Please don't repeatedly request" || strContains body "Not Found") = false →
      strContains body "The first half of this puzzle is complete!" = true →
      get_stars task session (.body body) = .ok .One) ∧
    ((strContains body "Please don't repeatedly request" || strContains body "Not Found") = false →
      strContains body "The first half of this puzzle is complete!" = false →
      strContains body "Both parts of this puzzle are complete!" = true →
      get_stars task session (.body body) = .ok .Two) ∧
    ((strContains body "Please don't repeatedly request" || strContains body "Not Found") = false →
      strContains body "The first half of this puzzle is complete!" = false →
      strContains body "Both parts of this puzzle are complete!" = false →
      get_stars task session (.body body) = .ok .Zero) ∧
    ((strContains body "Please don't repeatedly request" || strContains body "Not Found") = false →
      strContains body "The first half of this puzzle is complete!" = false →
      strContains body "Both parts of this puzzle are complete!" = false →
      (strContains body "Service Unavailable" = true ∨ strContains body "log in" = true ∨
        strContains body "Internal Server Error" = true) →
      get_stars task session (.body body) = .ok .Zero) := by
  refine ⟨?_, ?_, ?_, ?_, ?_⟩ <;> intros <;> simp_all [get_stars]

/-- Witness for C5: each star-classification branch at a concrete body,
including a body holding only fetch-only sentinels, classified as zero
stars rather than rejected. -/
theorem C5_witness :
    get_stars (DateInfo.mk "30" "2018") "s" (.body "404 Not Found") =
      .error (.Cause "Puzzle for day 30 is not live yet") ∧
    get_stars (DateInfo.mk "22" "2018") "s"
      (.body "The first half of this puzzle is complete!") = .ok .One ∧
    get_stars (DateInfo.mk "1" "2018") "s"
      (.body "Both parts of this puzzle are complete!") = .ok .Two ∧
    get_stars (DateInfo.mk "24" "2018") "s" (.body "nothing yet") = .ok .Zero ∧
    get_stars (DateInfo.mk "24" "2018") "s" (.body "Service Unavailable, log in") = .ok .Zero :=
  ⟨(C5_star_classifier_order (DateInfo.mk "30" "2018") "s" _).1 (by decide),
   (C5_star_classifier_order (DateInfo.mk "22" "2018") "s" _).2.1 (by decide) (by decide),
   (C5_star_classifier_order (DateInfo.mk "1" "2018") "s" _).2.2.1 (by decide) (by decide)
     (by decide),
   (C5_star_classifier_order (DateInfo.mk "24" "2018") "s" _).2.2.2.1 (by decide) (by decide)
     (by decide),
   (C5_star_classifier_order (DateInfo.mk "24" "2018") "s" _).2.2.2.2 (by decide) (by decide)
     (by decide) (Or.inl (by decide))⟩

/-- C7 counterexample: when the GET succeeds but decoding the body to
text fails, `get_stars` does not return
`ErrorCause("Error converting input to string")` — line 27 of
star_info.rs unwraps the decode result, so the process panics instead. -/
theorem C7_counterexample :
    get_stars (DateInfo.mk "1" "2018") "s" HttpResp.textErr ≠
      Outcome.error (FetchError.Cause "Error converting input to string") := by
  decide

/-- C7 amended: on a body-decode failure `fetch_input` returns
`ErrorCause("Error converting input to string")`, while `get_stars`
aborts with a panic (it unwraps the decode result) and returns nothing. -/
theorem C7_decode_failure (day year session sess2 : String) (task : DateInfo) :
    fetch_input day year session .textErr =
      .error (.Cause "Error converting input to string") ∧
    get_stars task sess2 .textErr = .panic :=
  ⟨rfl, rfl⟩

/-- C2: when the cache file for `(year, day)` exists and reads as UTF-8
(contents `B`, whatever the user put there), `load_or_fetch_input` returns
an input whose body is exactly `B`, issues no HTTP request, and leaves the
world unchanged — no validation, no re-fetch. -/
theorem C2_cache_hit (day year : String) (resp : HttpResp) (w : World) (B : String)
    (h : w.files (get_input_filename (AocInput.new day year "") INPUT_DIR) = some (some B)) :
    load_or_fetch_input day year resp w = (.ok (AocInput.new day year B), w, false) := by
  simp only [load_or_fetch_input, h]

/-- Witness for C2: a world caching `inputs/2017-5.txt` with body
`"data"`. -/
theorem C2_witness :
    load_or_fetch_input "5" "2017" HttpResp.sendErr sampleHitWorld =
      (.ok (AocInput.new "5" "2017" "data"), sampleHitWorld, false) :=
  C2_cache_hit "5" "2017" HttpResp.sendErr sampleHitWorld "data" (by decide)

/-- C3: when the cache file does not exist and the network fetch fails
with an error, `load_or_fetch_input` propagates that error, the world is
unchanged, and the cache file still does not exist afterwards. -/
theorem C3_fetch_error_propagated (day year sess : String) (resp : HttpResp) (w : World)
    (e : FetchError)
    (hfile : w.files (get_input_filename (AocInput.new day year "") INPUT_DIR) = none)
    (hsess : w.aocSession = some sess)
    (hfetch : fetch_input day year sess resp = .error e) :
    load_or_fetch_input day year resp w = (.error e, w, true) ∧
    (load_or_fetch_input day year resp w).2.1.files
      (get_input_filename (AocInput.new day year "") INPUT_DIR) = none := by
  have h1 : load_or_fetch_input day year resp w = (.error e, w, true) := by
    simp only [load_or_fetch_input, hfile, hsess, hfetch]
  exact ⟨h1, by rw [h1]; exact hfile⟩

/-- Witness for C3: an empty filesystem and a failing GET. -/
theorem C3_witness :
    load_or_fetch_input "5" "2017" HttpResp.sendErr sampleEmptyWorld =
      (.error (.Cause "Error sending GET request"), sampleEmptyWorld, true) ∧
    (load_or_fetch_input "5" "2017" HttpResp.sendErr sampleEmptyWorld).2.1.files
      (get_input_filename (AocInput.new "5" "2017" "") INPUT_DIR) = none :=
  C3_fetch_error_propagated "5" "2017" "tok" HttpResp.sendErr sampleEmptyWorld
    (.Cause "Error sending GET request") rfl rfl rfl

/-- C6 counterexample: `save_to_file` rewrites an existing cache file.
With `inputs/2016-4.txt` already holding `"old"`, calling `save_to_file`
on an input for day 4 of 2016 with body `"new"` truncates and replaces the
cached contents. -/
theorem C6_counterexample :
    sampleOverwriteWorld.files "inputs/2016-4.txt" = some (some "old") ∧
    (save_to_file (AocInput.new "4" "2016" "new") sampleOverwriteWorld).2.files
      "inputs/2016-4.txt" = some (some "new") ∧
    (some (some "new") : Option (Option String)) ≠ some (some "old") := by
  refine ⟨by decide, by decide, by decide⟩

/-- Lemma: `save_to_file` writes only to its own resolved filename. -/
theorem save_to_file_preserves (inp : AocInput) (w : World) (p : String)
    (hne : p ≠ get_input_filename inp INPUT_DIR) :
    ((save_to_file inp w).2).files p = w.files p := by
  unfold save_to_file
  split
  · rfl
  · dsimp only
    split
    · simp [hne]
    · rfl

/-- A successful `fetch_input` returns an input carrying the requested day
and year. -/
theorem fetch_input_ok_date (day year session : String) (resp : HttpResp)
    (inp : AocInput) (h : fetch_input day year session resp = .ok inp) :
    inp.day = day ∧ inp.year = year := by
  cases resp with
  | sendErr => simp [fetch_input] at h
  | textErr => simp [fetch_input] at h
  | body b =>
    simp only [fetch_input] at h
    split_ifs at h
    injection h with h2
    subst h2
    exact ⟨rfl, rfl⟩

/-- C6 amended: `load_or_fetch_input` never deletes or rewrites an
existing cache file — it writes only when the file for its own `(year,
day)` is absent — and `fetch_input` / `get_stars` never touch the
filesystem at all; `save_to_file`, however, truncates and rewrites the
existing cache file when invoked directly for an already-cached `(year,
day)`, so a newer value via the orchestrator alone is obtained only if the
user removes the file manually. -/
theorem C6_load_never_rewrites (day year : String) (resp : HttpResp) (w : World)
    (p : String) (c : Option String) (hp : w.files p = some c) :
    ((load_or_fetch_input day year resp w).2.1).files p = some c := by
  cases hfile : w.files (get_input_filename (AocInput.new day year "") INPUT_DIR) with
  | some contents =>
    cases contents <;> simp only [load_or_fetch_input, hfile] <;> exact hp
  | none =>
    have hne : p ≠ get_input_filename (AocInput.new day year "") INPUT_DIR := by
      intro he
      rw [he, hfile] at hp
      cases hp
    cases hsess : w.aocSession with
    | none => simp only [load_or_fetch_input, hfile, hsess]; exact hp
    | some session =>
      cases hfetch : fetch_input day year session resp with
      | panic => simp only [load_or_fetch_input, hfile, hsess, hfetch]; exact hp
      | error e => simp only [load_or_fetch_input, hfile, hsess, hfetch]; exact hp
      | ok inp =>
        obtain ⟨hd, hy⟩ := fetch_input_ok_date day year session resp inp hfetch
        have hne2 : p ≠ get_input_filename inp INPUT_DIR := by
          simpa [get_input_filename, hd, hy, AocInput.new] using hne
        have hsave := save_to_file_preserves inp w p hne2
        rcases hs : save_to_file inp w with ⟨out, w2⟩
        rw [hs] at hsave
        simp only at hsave
        cases out <;> simp only [load_or_fetch_input, hfile, hsess, hfetch, hs] <;>
          rw [hsave] <;> exact hp

/-- Witness for the amended C6: a fetch for a different, uncached day
leaves the cached `inputs/2017-5.txt` intact. -/
theorem C6_witness :
    ((load_or_fetch_input "9" "2020" HttpResp.sendErr sampleHitWorld).2.1).files
      "inputs/2017-5.txt" = some (some "data") :=
  C6_load_never_rewrites "9" "2020" HttpResp.sendErr sampleHitWorld
    "inputs/2017-5.txt" (some "data") (by decide)

/-- C10: the cache-path mapping is not injective — `(year := "2017-1",
day := "2")` and `(year := "2017", day := "1-2")` are distinct but resolve
to the same file `inputs/2017-1-2.txt`, so after the body `"B"` has been
stored for the first pair, `load_or_fetch_input` for the second pair
returns the cached `"B"` without any HTTP request. -/
theorem C10_cache_path_collision :
    ("2017-1", "2") ≠ ("2017", "1-2") ∧
    get_input_filename (AocInput.new "2" "2017-1" "") INPUT_DIR =
      get_input_filename (AocInput.new "1-2" "2017" "") INPUT_DIR ∧
    load_or_fetch_input "1-2" "2017" HttpResp.sendErr
        (save_to_file (AocInput.new "2" "2017-1" "B") sampleEmptyWorld).2 =
      (.ok (AocInput.new "1-2" "2017" "B"),
        (save_to_file (AocInput.new "2" "2017-1" "B") sampleEmptyWorld).2, false) := by
  refine ⟨by decide, by decide, ?_⟩
  rfl

end AocFetch
